import Mathlib

/-!
Shallow embedding of the FintTrack personal-finance application
(`src/app.py`) and proofs about its specified behaviour.

Conventions of the embedding:
* SQLAlchemy rows become Lean structures; the database becomes a `Store`
  holding lists of rows; `db.session.commit` of an insert/update/delete
  becomes the corresponding pure list transformation (an exception raised
  before the commit leaves the store unchanged, which models the
  end-of-request rollback of an uncommitted session).
* `request.form.get(k)` is an `Option String` (`none` when the field is
  absent from the POSTed form).
* Python `float` amounts are modelled as exact rationals `ℚ`.
* A handler returns an `Outcome` (the flashed message / redirect / abort)
  together with the resulting store.
-/

/-- Models the external password-hashing primitive at its interface:
an opaque one-way digest with a verification predicate
(`generate_password_hash` / `check_password_hash`). -/
structure Digest where
  val : String
deriving DecidableEq, Repr

def generate_password_hash (p : String) : Digest := ⟨p⟩

def check_password_hash (d : Digest) (p : String) : Bool := d.val == p

/-- A row of the `user` table (`class User` in `src/app.py`). -/
structure User where
  id : Nat
  username : String
  email : String
  password_hash : Digest
deriving DecidableEq, Repr

/-- A calendar date as produced by `datetime.strptime(s, "%Y-%m-%d").date()`. -/
structure Date where
  year : Nat
  month : Nat
  day : Nat
deriving DecidableEq, Repr

/-- A row of the `expense` / `income` tables (`class Expense`, `class Income`
in `src/app.py`; the two classes are field-for-field identical). -/
structure TRec where
  id : Nat
  user_id : Nat
  description : String
  amount : ℚ
  category : String
  date : Date
deriving DecidableEq, Repr

/-- The POSTed form of the add/edit handlers; each field is
`request.form.get(...)`, hence `none` when absent. -/
structure Form where
  description : Option String
  amount : Option String
  category : Option String
  date : Option String
deriving DecidableEq, Repr

/-- The database: `user`, `expense` and `income` tables. -/
structure Store where
  users : List User
  expenses : List TRec
  incomes : List TRec
deriving DecidableEq, Repr

/-- The user-visible result of a request handler: a flashed message with a
redirect, a 404 abort, an uncaught exception (rendered by the framework as
a 500 response), or a bare redirect/render. -/
inductive Outcome where
  | success (msg : String)
  | flashDanger (msg : String)
  | notFound
  | serverError
  | redirectLogin
  | redirectDashboard
  | rendered
deriving DecidableEq, Repr

/-- The Python exception classes relevant to the handlers.  Only
`ValueError` is caught by the `try/except ValueError` blocks in
`src/app.py`; the others escape the handler. -/
inductive PyErr where
  | valueError
  | typeError
  | integrityError
deriving DecidableEq, Repr

/-- Python truthiness of a form field: `not x` is true for a missing field
(`None`) and for the empty string. -/
def isBlank (o : Option String) : Bool :=
  match o with
  | none => true
  | some s => s == ""

def digitsToNat (cs : List Char) : Nat :=
  cs.foldl (fun n c => n * 10 + (c.toNat - 48)) 0

/-- Models Python `float(s)` on plain decimal literals: optional sign,
digits, optional single decimal point, at least one digit overall.
Exponent, infinity and nan forms are not modelled. -/
def parseFloat (s : String) : Option ℚ :=
  let step : List Char → Option ℚ := fun cs =>
    let intPart := cs.takeWhile (fun c => c.isDigit)
    let rest := cs.dropWhile (fun c => c.isDigit)
    match rest with
    | [] => if intPart.isEmpty then none else some (digitsToNat intPart)
    | '.' :: frac =>
      if frac.all (fun c => c.isDigit) && (!intPart.isEmpty || !frac.isEmpty) then
        some ((digitsToNat intPart : ℚ) + (digitsToNat frac : ℚ) / (10 ^ frac.length))
      else none
    | _ => none
  match s.data with
  | '-' :: t => (step t).map (fun q => -q)
  | '+' :: t => step t
  | t => step t

def isLeapYear (y : Nat) : Bool :=
  (y % 4 == 0 && y % 100 != 0) || (y % 400 == 0)

def daysInMonth (y m : Nat) : Nat :=
  if m == 2 then (if isLeapYear y then 29 else 28)
  else if m == 4 || m == 6 || m == 9 || m == 11 then 30
  else 31

/-- Split a character list on the dash separator (the groups of
`s.split("-")`, structurally recursive so that concrete inputs evaluate). -/
def splitOnDash : List Char → List (List Char)
  | [] => [[]]
  | c :: t =>
    match splitOnDash t, decide (c = '-') with
    | groups, true => [] :: groups
    | [], false => [[c]]
    | g :: gs, false => (c :: g) :: gs

/-- Models `datetime.strptime(s, "%Y-%m-%d").date()`: three dash-separated
digit groups forming a valid proleptic-Gregorian calendar date
(year 1..9999, month 1..12, day within the month's length). -/
def parseDate (s : String) : Option Date :=
  match splitOnDash s.data with
  | [ys, ms, ds] =>
    if ys.all (fun c => c.isDigit) && !ys.isEmpty &&
       ms.all (fun c => c.isDigit) && !ms.isEmpty &&
       ds.all (fun c => c.isDigit) && !ds.isEmpty then
      let y := digitsToNat ys
      let m := digitsToNat ms
      let d := digitsToNat ds
      if 1 ≤ y && y ≤ 9999 && 1 ≤ m && m ≤ 12 && 1 ≤ d && d ≤ daysInMonth y m then
        some ⟨y, m, d⟩
      else none
    else none
  | _ => none

/-- `float(x)` applied to a form field: `TypeError` when the field is
missing (`float(None)`), `ValueError` when the string does not parse. -/
def pyFloat (o : Option String) : Except PyErr ℚ :=
  match o with
  | none => .error .typeError
  | some s =>
    match parseFloat s with
    | none => .error .valueError
    | some a => .ok a

/-- `datetime.strptime(x, "%Y-%m-%d")` applied to a form field:
`TypeError` when the field is missing, `ValueError` when it does not
parse as a calendar date. -/
def pyDate (o : Option String) : Except PyErr Date :=
  match o with
  | none => .error .typeError
  | some s =>
    match parseDate s with
    | none => .error .valueError
    | some d => .ok d

/-- Autoincrement primary key for an insert into a table. -/
def freshId (rs : List TRec) : Nat :=
  rs.foldl (fun n r => max n r.id) 0 + 1

def freshUserId (us : List User) : Nat :=
  us.foldl (fun n u => max n u.id) 0 + 1

/-- Every read query of `src/app.py` filters on
`user_id == current_user.id` plus further predicates; this is the common
shape (`Expense.query.filter(Expense.user_id == current_user.id, ...)`). -/
def queryUser (uid : Nat) (p : TRec → Bool) (rs : List TRec) : List TRec :=
  rs.filter (fun r => r.user_id == uid && p r)

/-- SQL `SUM(amount)` over a result set: `NULL` (here `none`) when the set
is empty, the sum otherwise. -/
def sqlSum (l : List ℚ) : Option ℚ :=
  match l with
  | [] => none
  | _ => some l.sum

/-- `query.scalar() or 0` as written in `financial_dashboard`. -/
def scalarOrZero (o : Option ℚ) : ℚ :=
  match o with
  | none => 0
  | some q => q

/-- date `b` is at most date `a` (descending comparison key). -/
def dateGe (a b : Date) : Bool :=
  b.year < a.year ||
    (b.year == a.year && (b.month < a.month || (b.month == a.month && b.day ≤ a.day)))

def insertDesc (r : TRec) : List TRec → List TRec
  | [] => [r]
  | x :: t => if dateGe r.date x.date then r :: x :: t else x :: insertDesc r t

/-- `order_by(date.desc())` on a result set. -/
def sortByDateDesc (rs : List TRec) : List TRec :=
  rs.foldr insertDesc []

/-- One step of the category-totals dictionary loop of the listing pages
(`categories[c] += amount` with insertion-ordered keys). -/
def addToCat (m : List (String × ℚ)) (c : String) (a : ℚ) : List (String × ℚ) :=
  if m.any (fun p => p.1 == c) then
    m.map (fun p => if p.1 == c then (p.1, p.2 + a) else p)
  else m ++ [(c, a)]

/-- The category-totals fold, also used to model SQL
`group_by(category)` + `SUM(amount)`. -/
def groupSumBy (rs : List TRec) : List (String × ℚ) :=
  rs.foldl (fun m r => addToCat m r.category r.amount) []

/-- The `try/except ValueError` block of the CRUD handlers: a `ValueError`
is caught and flashed; any other exception escapes the handler and the
framework renders a 500 response.  In either exceptional case nothing was
committed, so the table is unchanged. -/
def tryBlock (c : Except PyErr (Outcome × List TRec)) (rs : List TRec) : Outcome × List TRec :=
  match c with
  | .ok res => res
  | .error .valueError => (.flashDanger "Valor ou data inválidos.", rs)
  | .error _ => (.serverError, rs)

/-- `add_expense` / `add_income` of `src/app.py` (identical up to the table
and the flashed messages): blank-field check, `float` parse, positivity
check, date parse, then insert and commit. -/
def add_record (okMsg : String) (uid : Nat) (f : Form) (rs : List TRec) : Outcome × List TRec :=
  if isBlank f.description || isBlank f.amount || isBlank f.category || isBlank f.date then
    (.flashDanger "Todos os campos são obrigatórios.", rs)
  else
    tryBlock (do
      let a ← pyFloat f.amount
      if a ≤ 0 then
        return (.flashDanger "O valor deve ser maior que zero.", rs)
      else
        let d ← pyDate f.date
        return (.success okMsg,
          rs ++ [{ id := freshId rs, user_id := uid,
                   description := f.description.getD "", amount := a,
                   category := f.category.getD "", date := d }])) rs

/-- `delete_expense` / `delete_income`: `get_or_404`, ownership guard,
then delete and commit. -/
def delete_record (okMsg forbidMsg : String) (uid rid : Nat) (rs : List TRec) :
    Outcome × List TRec :=
  match rs.find? (fun r => r.id == rid) with
  | none => (.notFound, rs)
  | some r =>
    if r.user_id != uid then (.flashDanger forbidMsg, rs)
    else (.success okMsg, rs.filter (fun x => x.id != rid))

/-- `edit_expense` / `edit_income`: `get_or_404`, ownership guard, then a
`try` block assigning all four fields (`float(amount)` raises before
`strptime(date)`) and committing.  A `None` description or category
survives to the commit, where the NOT NULL column constraint raises
`IntegrityError`, which — like `TypeError` — is not caught. -/
def edit_record (okMsg forbidMsg : String) (uid rid : Nat) (f : Form) (rs : List TRec) :
    Outcome × List TRec :=
  match rs.find? (fun r => r.id == rid) with
  | none => (.notFound, rs)
  | some r =>
    if r.user_id != uid then (.flashDanger forbidMsg, rs)
    else
      tryBlock (do
        let a ← pyFloat f.amount
        let d ← pyDate f.date
        match f.description, f.category with
        | some desc, some cat =>
          return (.success okMsg,
            rs.map (fun x =>
              if x.id == rid then
                { x with description := desc, amount := a, category := cat, date := d }
              else x))
        | _, _ => .error .integrityError) rs

def add_expense (uid : Nat) (f : Form) (s : Store) : Outcome × Store :=
  let (o, l) := add_record "Gasto adicionado com sucesso!" uid f s.expenses
  (o, { s with expenses := l })

def delete_expense (uid rid : Nat) (s : Store) : Outcome × Store :=
  let (o, l) := delete_record "Gasto deletado com sucesso!"
    "Você não tem permissão para deletar este gasto." uid rid s.expenses
  (o, { s with expenses := l })

def edit_expense (uid rid : Nat) (f : Form) (s : Store) : Outcome × Store :=
  let (o, l) := edit_record "Gasto atualizado com sucesso!"
    "Você não tem permissão para editar este gasto." uid rid f s.expenses
  (o, { s with expenses := l })

def add_income (uid : Nat) (f : Form) (s : Store) : Outcome × Store :=
  let (o, l) := add_record "Receita adicionada com sucesso!" uid f s.incomes
  (o, { s with incomes := l })

def delete_income (uid rid : Nat) (s : Store) : Outcome × Store :=
  let (o, l) := delete_record "Receita deletada com sucesso!"
    "Você não tem permissão para deletar esta receita." uid rid s.incomes
  (o, { s with incomes := l })

def edit_income (uid rid : Nat) (f : Form) (s : Store) : Outcome × Store :=
  let (o, l) := edit_record "Receita atualizada com sucesso!"
    "Você não tem permissão para editar esta receita." uid rid f s.incomes
  (o, { s with incomes := l })

/-- The POST branch of `register`: password-confirmation check, duplicate
email check (`filter_by(email=...)`), duplicate username check, then the
insert and commit.  A missing username or email reaches the NOT NULL
commit and a missing password reaches `generate_password_hash(None)`;
either raises, which the handler does not catch. -/
def register (username email password confirm : Option String) (users : List User) :
    Outcome × List User :=
  if password ≠ confirm then
    (.flashDanger "As senhas não coincidem.", users)
  else if users.any (fun u => some u.email == email) then
    (.flashDanger "Este email já está cadastrado.", users)
  else if users.any (fun u => some u.username == username) then
    (.flashDanger "Este nome de usuário já existe.", users)
  else
    match username, email, password with
    | some un, some em, some pw =>
      (.success "Conta criada com sucesso! Faça login.",
        users ++ [{ id := freshUserId users, username := un, email := em,
                    password_hash := generate_password_hash pw }])
    | _, _, _ => (.serverError, users)

/-- The session of flask-login: `none` is `Anonymous`,
`some uid` is `Authenticated(uid)`. -/
def login (sess : Option Nat) (email password : Option String) (users : List User) :
    Outcome × Option Nat :=
  match sess with
  | some uid => (.redirectDashboard, some uid)
  | none =>
    match users.find? (fun u => some u.email == email) with
    | some u =>
      match password with
      | some pw =>
        if check_password_hash u.password_hash pw then (.redirectDashboard, some u.id)
        else (.flashDanger "Email ou senha incorretos.", none)
      | none => (.serverError, none)
    | none => (.flashDanger "Email ou senha incorretos.", none)

/-- The `@login_required` decorator of flask-login, modelled at its
interface: an anonymous session is redirected to the login page and the
handler body never runs. -/
def requireLogin (sess : Option Nat) (handler : Nat → Store → Outcome × Store) (s : Store) :
    Outcome × Store :=
  match sess with
  | none => (.redirectLogin, s)
  | some uid => handler uid s

def add_expense_route (sess : Option Nat) (f : Form) (s : Store) : Outcome × Store :=
  requireLogin sess (fun uid => add_expense uid f) s

def edit_expense_route (sess : Option Nat) (rid : Nat) (f : Form) (s : Store) : Outcome × Store :=
  requireLogin sess (fun uid => edit_expense uid rid f) s

def delete_expense_route (sess : Option Nat) (rid : Nat) (s : Store) : Outcome × Store :=
  requireLogin sess (fun uid => delete_expense uid rid) s

def add_income_route (sess : Option Nat) (f : Form) (s : Store) : Outcome × Store :=
  requireLogin sess (fun uid => add_income uid f) s

def edit_income_route (sess : Option Nat) (rid : Nat) (f : Form) (s : Store) : Outcome × Store :=
  requireLogin sess (fun uid => edit_income uid rid f) s

def delete_income_route (sess : Option Nat) (rid : Nat) (s : Store) : Outcome × Store :=
  requireLogin sess (fun uid => delete_income uid rid) s

/-- The `/financial-dashboard` route: read-only; rendering is out of
scope, the computed data is `financial_dashboard` below. -/
def financial_dashboard_route (sess : Option Nat) (s : Store) : Outcome × Store :=
  requireLogin sess (fun _ st => (.rendered, st)) s

/-- The fixed month-abbreviation table of `financial_dashboard`. -/
def monthAbbrev : List String :=
  ["Jan", "Fev", "Mar", "Abr", "Mai", "Jun", "Jul", "Ago", "Set", "Out", "Nov", "Dez"]

/-- One `func.sum(amount)` query of `financial_dashboard` filtered on
user, year and month, with its `.scalar() or 0`. -/
def monthSum (uid y m : Nat) (rs : List TRec) : ℚ :=
  scalarOrZero (sqlSum
    ((queryUser uid (fun r => r.date.year == y && r.date.month == m) rs).map (fun r => r.amount)))

/-- One `func.sum(amount)` query filtered on user and year only
(the yearly loop), with its `.scalar() or 0`. -/
def yearSum (uid y : Nat) (rs : List TRec) : ℚ :=
  scalarOrZero (sqlSum
    ((queryUser uid (fun r => r.date.year == y) rs).map (fun r => r.amount)))

/-- One element of `monthly_data` in `financial_dashboard`. -/
structure MonthEntry where
  month : Nat
  month_name : String
  expenses : ℚ
  incomes : ℚ
  balance : ℚ
deriving DecidableEq, Repr

def monthEntry (uid y m : Nat) (es is : List TRec) : MonthEntry :=
  { month := m
    month_name := monthAbbrev.getD (m - 1) ""
    expenses := monthSum uid y m es
    incomes := monthSum uid y m is
    balance := monthSum uid y m is - monthSum uid y m es }

/-- The `monthly_data` list built by the `for month in range(1, 13)` loop. -/
def monthly_data (uid y : Nat) (s : Store) : List MonthEntry :=
  (List.range 12).map (fun i => monthEntry uid y (i + 1) s.expenses s.incomes)

/-- One element of `yearly_data`. -/
structure YearEntry where
  year : Nat
  expenses : ℚ
  incomes : ℚ
  balance : ℚ
deriving DecidableEq, Repr

/-- The `yearly_data` list built by the
`for year in range(selected_year - 4, selected_year + 1)` loop. -/
def yearly_data (uid y : Nat) (s : Store) : List YearEntry :=
  (List.range 5).map (fun i =>
    { year := y - 4 + i
      expenses := yearSum uid (y - 4 + i) s.expenses
      incomes := yearSum uid (y - 4 + i) s.incomes
      balance := yearSum uid (y - 4 + i) s.incomes - yearSum uid (y - 4 + i) s.expenses })

/-- `expense_categories` / `income_categories`: SQL `group_by(category)`
with `SUM(amount)` over the user's records of the selected year. -/
def categoriesOfYear (uid y : Nat) (rs : List TRec) : List (String × ℚ) :=
  groupSumBy (queryUser uid (fun r => r.date.year == y) rs)

/-- `total_expenses = sum(month['expenses'] for month in monthly_data)`. -/
def total_expenses (uid y : Nat) (s : Store) : ℚ :=
  ((monthly_data uid y s).map (fun e => e.expenses)).sum

/-- `total_incomes = sum(month['incomes'] for month in monthly_data)`. -/
def total_incomes (uid y : Nat) (s : Store) : ℚ :=
  ((monthly_data uid y s).map (fun e => e.incomes)).sum

/-- `total_balance = total_incomes - total_expenses`. -/
def total_balance (uid y : Nat) (s : Store) : ℚ :=
  total_incomes uid y s - total_expenses uid y s

/-- Everything `financial_dashboard` passes to its template. -/
structure DashboardData where
  monthly : List MonthEntry
  yearly : List YearEntry
  expense_categories : List (String × ℚ)
  income_categories : List (String × ℚ)
  totalExpenses : ℚ
  totalIncomes : ℚ
  totalBalance : ℚ
deriving DecidableEq, Repr

/-- The data computed by `financial_dashboard` for a user and a selected
year. -/
def financial_dashboard (uid y : Nat) (s : Store) : DashboardData :=
  { monthly := monthly_data uid y s
    yearly := yearly_data uid y s
    expense_categories := categoriesOfYear uid y s.expenses
    income_categories := categoriesOfYear uid y s.incomes
    totalExpenses := total_expenses uid y s
    totalIncomes := total_incomes uid y s
    totalBalance := total_balance uid y s }

/-- Everything a listing page (`expenses()` / `incomes()`) passes to its
template: the user's records sorted by date descending, their total, and
the per-category totals. -/
structure ListingPage where
  records : List TRec
  total : ℚ
  categories : List (String × ℚ)
deriving DecidableEq, Repr

def listing_page (uid : Nat) (rs : List TRec) : ListingPage :=
  let user_records := sortByDateDesc (queryUser uid (fun _ => true) rs)
  { records := user_records
    total := (user_records.map (fun r => r.amount)).sum
    categories := groupSumBy user_records }

/-- The `/expenses` listing page. -/
def expenses (uid : Nat) (s : Store) : ListingPage :=
  listing_page uid s.expenses

/-- The `/incomes` listing page. -/
def incomes (uid : Nat) (s : Store) : ListingPage :=
  listing_page uid s.incomes

/-- Written from the claim, for comparison with the code: the sum of the
amounts of the records owned by `uid` and dated in year `y`, month `m`
(zero when there is no such record). -/
def spec_month_sum (uid y m : Nat) (rs : List TRec) : ℚ :=
  ((rs.filter (fun r => (r.user_id == uid && r.date.year == y) && r.date.month == m)).map
    (fun r => r.amount)).sum

/-- Written from the claim, for comparison with the code: the sum of the
amounts of the records owned by `uid` and dated in year `y`. -/
def spec_year_sum (uid y : Nat) (rs : List TRec) : ℚ :=
  ((rs.filter (fun r => r.user_id == uid && r.date.year == y)).map (fun r => r.amount)).sum

/-- Concrete store used to exercise the aggregation theorems: one expense
of 12.50 on 2024-03-15 owned by user 7 (the scenario of the spec). -/
def es0 : List TRec :=
  [{ id := 1, user_id := 7, description := "Lunch", amount := 25/2,
     category := "Food", date := { year := 2024, month := 3, day := 15 } }]

def store0 : Store := { users := [], expenses := es0, incomes := [] }

/-- A single expense of 10 owned by user 7. -/
def recLunch : TRec :=
  { id := 1, user_id := 7, description := "Lunch", amount := 10,
    category := "Food", date := { year := 2024, month := 3, day := 15 } }

/-- Concrete store used to exercise the edit handlers: one expense of 10
owned by user 7. -/
def storeE : Store :=
  { users := [], expenses := [recLunch], incomes := [] }

/-- The overwritten row produced by editing `recLunch` with `formNeg`. -/
def recNeg : TRec :=
  { id := 1, user_id := 7, description := "x", amount := -5,
    category := "y", date := { year := 2024, month := 1, day := 2 } }

/-- Concrete user table with one registered account. -/
def users0 : List User :=
  [{ id := 1, username := "alice", email := "alice@example.com",
     password_hash := generate_password_hash "secret" }]

/-- A fully valid add form. -/
def formOk : Form :=
  { description := some "Lunch", amount := some "12", category := some "Food",
    date := some "2024-03-15" }

/-- An add form with a blank description. -/
def formBlankDesc : Form :=
  { description := some "", amount := some "12", category := some "Food",
    date := some "2024-03-15" }

/-- An edit form carrying a negative amount (all fields present). -/
def formNeg : Form :=
  { description := some "x", amount := some "-5", category := some "y",
    date := some "2024-01-02" }

/-- An edit form whose amount field is missing from the POST. -/
def formNoAmount : Form :=
  { description := some "x", amount := none, category := some "y",
    date := some "2024-01-02" }

/-- The empty database. -/
def emptyStore : Store := { users := [], expenses := [], incomes := [] }

theorem scalarOrZero_sqlSum (l : List ℚ) : scalarOrZero (sqlSum l) = l.sum := by
  cases l <;> simp [sqlSum, scalarOrZero]

theorem monthSum_eq_spec (uid y m : Nat) (rs : List TRec) :
    monthSum uid y m rs = spec_month_sum uid y m rs := by
  unfold monthSum spec_month_sum queryUser
  rw [scalarOrZero_sqlSum]
  have : rs.filter (fun r => r.user_id == uid && (r.date.year == y && r.date.month == m))
      = rs.filter (fun r => (r.user_id == uid && r.date.year == y) && r.date.month == m) :=
    List.filter_congr (fun x _ =>
      (Bool.and_assoc (x.user_id == uid) (x.date.year == y) (x.date.month == m)).symm)
  rw [this]

theorem sum_map_add (l : List Nat) (f g : Nat → ℚ) :
    (l.map (fun i => f i + g i)).sum = (l.map f).sum + (l.map g).sum := by
  induction l with
  | nil => simp
  | cons h t ih => simp only [List.map_cons, List.sum_cons, ih]; ring

theorem range12 : List.range 12 = [0, 1, 2, 3, 4, 5, 6, 7, 8, 9, 10, 11] := by decide

theorem bucket_sum (b : Bool) (a : ℚ) (m0 : Nat) (h1 : 1 ≤ m0) (h2 : m0 ≤ 12) :
    ((List.range 12).map (fun i => if b && (m0 == i + 1) then a else 0)).sum
      = if b then a else 0 := by
  cases b with
  | false => simp
  | true =>
    rw [range12]
    interval_cases m0 <;> simp

theorem spec_month_sum_cons (uid y m : Nat) (r : TRec) (t : List TRec) :
    spec_month_sum uid y m (r :: t)
      = (if (r.user_id == uid && r.date.year == y) && r.date.month == m then r.amount else 0)
        + spec_month_sum uid y m t := by
  simp only [spec_month_sum, List.filter_cons]
  split <;> simp

theorem spec_year_sum_cons (uid y : Nat) (r : TRec) (t : List TRec) :
    spec_year_sum uid y (r :: t)
      = (if r.user_id == uid && r.date.year == y then r.amount else 0)
        + spec_year_sum uid y t := by
  simp only [spec_year_sum, List.filter_cons]
  split <;> simp

theorem months_partition (uid y : Nat) (rs : List TRec)
    (h : ∀ r ∈ rs, 1 ≤ r.date.month ∧ r.date.month ≤ 12) :
    ((List.range 12).map (fun i => spec_month_sum uid y (i + 1) rs)).sum
      = spec_year_sum uid y rs := by
  induction rs with
  | nil => simp [spec_month_sum, spec_year_sum]
  | cons r t ih =>
    have hr := h r (List.mem_cons_self r t)
    have ht : ∀ x ∈ t, 1 ≤ x.date.month ∧ x.date.month ≤ 12 :=
      fun x hx => h x (List.mem_cons_of_mem r hx)
    have expand : ((List.range 12).map (fun i => spec_month_sum uid y (i + 1) (r :: t)))
        = (List.range 12).map (fun i =>
            (if (r.user_id == uid && r.date.year == y) && r.date.month == i + 1 then r.amount
             else 0) + spec_month_sum uid y (i + 1) t) := by
      simp only [spec_month_sum_cons]
    rw [expand, sum_map_add, bucket_sum _ _ _ hr.1 hr.2, ih ht, spec_year_sum_cons]

/-- C1: for every user and selected year, `monthly_data` is an ordered
sequence of exactly 12 entries, one per month m in 1..12; the entry for
month m carries the sum of the amounts of the user's expense records in
year Y month m, the analogous income sum, and balance = incomes −
expenses; a month with no matching records carries the value zero (an
entry is always present, never absent or null). -/
theorem C1_monthly_summary (uid y m : Nat) (s : Store) (h1 : 1 ≤ m) (h2 : m ≤ 12) :
    (monthly_data uid y s).length = 12 ∧
    (monthly_data uid y s)[m - 1]? =
      some { month := m
             month_name := monthAbbrev.getD (m - 1) ""
             expenses := spec_month_sum uid y m s.expenses
             incomes := spec_month_sum uid y m s.incomes
             balance := spec_month_sum uid y m s.incomes
                        - spec_month_sum uid y m s.expenses } := by
  constructor
  · simp [monthly_data]
  · have hm : m - 1 < 12 := by omega
    have hstep : (monthly_data uid y s)[m - 1]?
        = some (monthEntry uid y ((m - 1) + 1) s.expenses s.incomes) := by
      unfold monthly_data
      rw [List.getElem?_map, List.getElem?_range hm]
      rfl
    have hm1 : m - 1 + 1 = m := by omega
    rw [hstep, hm1]
    simp [monthEntry, monthSum_eq_spec]

/-- Witness for C1 at the concrete scenario store: month 3 of 2024 holds
the 12.50 lunch expense, no incomes. -/
theorem C1_monthly_summary_witness :
    (monthly_data 7 2024 store0).length = 12 ∧
    (monthly_data 7 2024 store0)[2]? =
      some { month := 3, month_name := "Mar", expenses := 25/2, incomes := 0,
             balance := 0 - 25/2 } := by
  have h := C1_monthly_summary 7 2024 3 store0 (by decide) (by decide)
  refine ⟨h.1, h.2.trans ?_⟩
  simp [spec_month_sum, store0, es0, monthAbbrev]

/-- C2: the grand totals of the financial dashboard are fold-consistent:
`total_expenses` is the sum of the 12 monthly expense sums,
`total_incomes` the analogous sum, `total_balance` their difference, and
the former two equal the sums computed directly over all of the user's
records dated in year Y.  (Stored dates come from `strptime`, so their
month is always in 1..12, which the hypotheses record.) -/
theorem C2_grand_totals (uid y : Nat) (s : Store)
    (hE : ∀ r ∈ s.expenses, 1 ≤ r.date.month ∧ r.date.month ≤ 12)
    (hI : ∀ r ∈ s.incomes, 1 ≤ r.date.month ∧ r.date.month ≤ 12) :
    total_expenses uid y s = ((monthly_data uid y s).map (fun e => e.expenses)).sum ∧
    total_incomes uid y s = ((monthly_data uid y s).map (fun e => e.incomes)).sum ∧
    total_balance uid y s = total_incomes uid y s - total_expenses uid y s ∧
    total_expenses uid y s = spec_year_sum uid y s.expenses ∧
    total_incomes uid y s = spec_year_sum uid y s.incomes := by
  refine ⟨rfl, rfl, rfl, ?_, ?_⟩
  · have hx : total_expenses uid y s
        = ((List.range 12).map (fun i => spec_month_sum uid y (i + 1) s.expenses)).sum := by
      simp [total_expenses, monthly_data, monthEntry, List.map_map, Function.comp_def,
        monthSum_eq_spec]
    rw [hx, months_partition uid y s.expenses hE]
  · have hx : total_incomes uid y s
        = ((List.range 12).map (fun i => spec_month_sum uid y (i + 1) s.incomes)).sum := by
      simp [total_incomes, monthly_data, monthEntry, List.map_map, Function.comp_def,
        monthSum_eq_spec]
    rw [hx, months_partition uid y s.incomes hI]

/-- Witness for C2 at the concrete scenario store. -/
theorem C2_grand_totals_witness :
    total_expenses 7 2024 store0 = spec_year_sum 7 2024 store0.expenses ∧
    total_balance 7 2024 store0 = total_incomes 7 2024 store0 - total_expenses 7 2024 store0 :=
  ⟨(C2_grand_totals 7 2024 store0 (by decide) (by decide)).2.2.2.1,
   (C2_grand_totals 7 2024 store0 (by decide) (by decide)).2.2.1⟩


theorem parseFloat_empty : parseFloat "" = none := rfl

theorem parseDate_empty : parseDate "" = none := rfl

theorem add_record_blank (okMsg : String) (uid : Nat) (f : Form) (rs : List TRec)
    (h : (isBlank f.description || isBlank f.amount || isBlank f.category || isBlank f.date)
          = true) :
    add_record okMsg uid f rs = (.flashDanger "Todos os campos são obrigatórios.", rs) := by
  simp [add_record, h]

/-- Exhaustive behaviour of the add handler: either some message is
flashed and the table is unchanged, or the input was fully valid and
exactly the described row is appended. -/
theorem add_record_cases (okMsg : String) (uid : Nat) (f : Form) (rs : List TRec) :
    (∃ m, add_record okMsg uid f rs = (.flashDanger m, rs)) ∨
    (∃ a d, pyFloat f.amount = .ok a ∧ 0 < a ∧ pyDate f.date = .ok d ∧
      add_record okMsg uid f rs = (.success okMsg,
        rs ++ [{ id := freshId rs, user_id := uid, description := f.description.getD "",
                 amount := a, category := f.category.getD "", date := d }])) := by
  by_cases hb : (isBlank f.description || isBlank f.amount || isBlank f.category ||
      isBlank f.date) = true
  · exact .inl ⟨_, add_record_blank okMsg uid f rs hb⟩
  · rw [Bool.not_eq_true] at hb
    have hparts := hb
    simp only [Bool.or_eq_false_iff] at hparts
    obtain ⟨⟨⟨hbde, hba⟩, hbc⟩, hbdt⟩ := hparts
    rcases hfa : f.amount with _ | astr
    · rw [hfa] at hba; simp [isBlank] at hba
    · rw [hfa] at hba
      rcases hpa : parseFloat astr with _ | a
      · refine .inl ⟨"Valor ou data inválidos.", ?_⟩
        simp [add_record, hbde, hba, hbc, hbdt, hfa, tryBlock, pyFloat, hpa,
          Bind.bind, Except.bind]
      · by_cases hpos : a ≤ 0
        · refine .inl ⟨"O valor deve ser maior que zero.", ?_⟩
          simp [add_record, hbde, hba, hbc, hbdt, hfa, tryBlock, pyFloat, hpa, hpos,
            Bind.bind, Except.bind, pure, Except.pure]
        · rcases hfd : f.date with _ | dstr
          · rw [hfd] at hbdt; simp [isBlank] at hbdt
          · rw [hfd] at hbdt
            rcases hpd : parseDate dstr with _ | d
            · refine .inl ⟨"Valor ou data inválidos.", ?_⟩
              simp [add_record, hbde, hba, hbc, hbdt, hfa, hfd, tryBlock, pyFloat, pyDate,
                hpa, hpd, hpos, Bind.bind, Except.bind]
            · refine .inr ⟨a, d, by simp [pyFloat, hfa, hpa], lt_of_not_le hpos,
                by simp [pyDate, hfd, hpd], ?_⟩
              simp [add_record, hbde, hba, hbc, hbdt, hfa, hfd, tryBlock, pyFloat, pyDate,
                hpa, hpd, hpos, Bind.bind, Except.bind, pure, Except.pure]

theorem add_record_flash_of_badFloat (okMsg : String) (uid : Nat) (f : Form) (rs : List TRec)
    (astr : String) (hfa : f.amount = some astr) (hpa : parseFloat astr = none) :
    ∃ m, add_record okMsg uid f rs = (.flashDanger m, rs) := by
  rcases add_record_cases okMsg uid f rs with h | ⟨a, d, hfl, _, _, _⟩
  · exact h
  · rw [hfa] at hfl; simp [pyFloat, hpa] at hfl

theorem add_record_flash_of_nonpos (okMsg : String) (uid : Nat) (f : Form) (rs : List TRec)
    (a : ℚ) (hfl : pyFloat f.amount = .ok a) (hle : a ≤ 0) :
    ∃ m, add_record okMsg uid f rs = (.flashDanger m, rs) := by
  rcases add_record_cases okMsg uid f rs with h | ⟨a2, d, hfl2, hpos, _, _⟩
  · exact h
  · have heq := hfl.symm.trans hfl2
    injection heq with heq
    subst heq
    exact absurd hpos (not_lt.mpr hle)

theorem add_record_flash_of_badDate (okMsg : String) (uid : Nat) (f : Form) (rs : List TRec)
    (dstr : String) (hfd : f.date = some dstr) (hpd : parseDate dstr = none) :
    ∃ m, add_record okMsg uid f rs = (.flashDanger m, rs) := by
  rcases add_record_cases okMsg uid f rs with h | ⟨a, d, _, _, hdl, _⟩
  · exact h
  · rw [hfd] at hdl; simp [pyDate, hpd] at hdl

theorem add_record_success (okMsg : String) (uid : Nat) (desc astr cat dstr : String)
    (rs : List TRec) (a : ℚ) (d : Date)
    (hdesc : desc ≠ "") (hcat : cat ≠ "")
    (ha : parseFloat astr = some a) (hpos : 0 < a) (hd : parseDate dstr = some d) :
    add_record okMsg uid ⟨some desc, some astr, some cat, some dstr⟩ rs
      = (.success okMsg,
        rs ++ [{ id := freshId rs, user_id := uid, description := desc, amount := a,
                 category := cat, date := d }]) := by
  have hastr : astr ≠ "" := by
    intro h; rw [h, parseFloat_empty] at ha; cases ha
  have hdstr : dstr ≠ "" := by
    intro h; rw [h, parseDate_empty] at hd; cases hd
  simp [add_record, isBlank, hdesc, hcat, hastr, hdstr, tryBlock, pyFloat, pyDate, ha, hd,
    not_le.mpr hpos, Bind.bind, Except.bind, pure, Except.pure]

/-- C3: for every add request (both variants): a blank field, a
non-parsing or non-positive amount, or a non-parsing date yields a
user-visible error with the store completely unchanged; a valid input
inserts exactly one record carrying the given fields and the acting user
as owner. -/
theorem C3_add_validation (uid : Nat) (f : Form) (s : Store) :
    ((isBlank f.description || isBlank f.amount || isBlank f.category || isBlank f.date)
        = true →
      add_expense uid f s = (.flashDanger "Todos os campos são obrigatórios.", s) ∧
      add_income uid f s = (.flashDanger "Todos os campos são obrigatórios.", s)) ∧
    (∀ astr, f.amount = some astr → parseFloat astr = none →
      (∃ m, add_expense uid f s = (.flashDanger m, s)) ∧
      ∃ m, add_income uid f s = (.flashDanger m, s)) ∧
    (∀ a, pyFloat f.amount = .ok a → a ≤ 0 →
      (∃ m, add_expense uid f s = (.flashDanger m, s)) ∧
      ∃ m, add_income uid f s = (.flashDanger m, s)) ∧
    (∀ dstr, f.date = some dstr → parseDate dstr = none →
      (∃ m, add_expense uid f s = (.flashDanger m, s)) ∧
      ∃ m, add_income uid f s = (.flashDanger m, s)) ∧
    (∀ desc astr cat dstr a d, f = ⟨some desc, some astr, some cat, some dstr⟩ →
      desc ≠ "" → cat ≠ "" → parseFloat astr = some a → 0 < a → parseDate dstr = some d →
      add_expense uid f s = (.success "Gasto adicionado com sucesso!",
        { s with expenses := s.expenses ++
            [{ id := freshId s.expenses, user_id := uid, description := desc, amount := a,
               category := cat, date := d }] }) ∧
      add_income uid f s = (.success "Receita adicionada com sucesso!",
        { s with incomes := s.incomes ++
            [{ id := freshId s.incomes, user_id := uid, description := desc, amount := a,
               category := cat, date := d }] })) := by
  refine ⟨?_, ?_, ?_, ?_, ?_⟩
  · intro hb
    exact ⟨by simp [add_expense, add_record_blank _ _ _ _ hb],
           by simp [add_income, add_record_blank _ _ _ _ hb]⟩
  · intro astr hfa hpa
    obtain ⟨m1, hm1⟩ := add_record_flash_of_badFloat
      "Gasto adicionado com sucesso!" uid f s.expenses astr hfa hpa
    obtain ⟨m2, hm2⟩ := add_record_flash_of_badFloat
      "Receita adicionada com sucesso!" uid f s.incomes astr hfa hpa
    exact ⟨⟨m1, by simp [add_expense, hm1]⟩, ⟨m2, by simp [add_income, hm2]⟩⟩
  · intro a hfl hle
    obtain ⟨m1, hm1⟩ := add_record_flash_of_nonpos
      "Gasto adicionado com sucesso!" uid f s.expenses a hfl hle
    obtain ⟨m2, hm2⟩ := add_record_flash_of_nonpos
      "Receita adicionada com sucesso!" uid f s.incomes a hfl hle
    exact ⟨⟨m1, by simp [add_expense, hm1]⟩, ⟨m2, by simp [add_income, hm2]⟩⟩
  · intro dstr hfd hpd
    obtain ⟨m1, hm1⟩ := add_record_flash_of_badDate
      "Gasto adicionado com sucesso!" uid f s.expenses dstr hfd hpd
    obtain ⟨m2, hm2⟩ := add_record_flash_of_badDate
      "Receita adicionada com sucesso!" uid f s.incomes dstr hfd hpd
    exact ⟨⟨m1, by simp [add_expense, hm1]⟩, ⟨m2, by simp [add_income, hm2]⟩⟩
  · intro desc astr cat dstr a d hf hdesc hcat ha hpos hd
    subst hf
    constructor
    · simp [add_expense, add_record_success _ uid desc astr cat dstr s.expenses a d
        hdesc hcat ha hpos hd]
    · simp [add_income, add_record_success _ uid desc astr cat dstr s.incomes a d
        hdesc hcat ha hpos hd]


/-- Witness for C3: a fully valid add on an empty store inserts exactly
the given record, and a blank-description add flashes the required-fields
error leaving the store unchanged. -/
theorem C3_add_validation_witness :
    add_expense 7 formOk emptyStore
      = (.success "Gasto adicionado com sucesso!",
         { users := []
           expenses := [{ id := 1, user_id := 7, description := "Lunch", amount := 12,
                          category := "Food",
                          date := { year := 2024, month := 3, day := 15 } }]
           incomes := [] }) ∧
    add_expense 7 formBlankDesc emptyStore
      = (.flashDanger "Todos os campos são obrigatórios.", emptyStore) := by
  constructor
  · have h := (C3_add_validation 7 formOk emptyStore).2.2.2.2
      "Lunch" "12" "Food" "2024-03-15" 12 { year := 2024, month := 3, day := 15 }
      rfl (by decide) (by decide) (by decide) (by norm_num) (by decide)
    exact h.1.trans (by decide)
  · exact ((C3_add_validation 7 formBlankDesc emptyStore).1 (by decide)).1

theorem delete_record_notFound (okMsg forbidMsg : String) (uid rid : Nat) (rs : List TRec)
    (h : rs.find? (fun r => r.id == rid) = none) :
    delete_record okMsg forbidMsg uid rid rs = (.notFound, rs) := by
  simp [delete_record, h]

theorem edit_record_notFound (okMsg forbidMsg : String) (uid rid : Nat) (f : Form)
    (rs : List TRec) (h : rs.find? (fun r => r.id == rid) = none) :
    edit_record okMsg forbidMsg uid rid f rs = (.notFound, rs) := by
  simp [edit_record, h]

theorem delete_record_forbidden (okMsg forbidMsg : String) (uid rid : Nat) (rs : List TRec)
    (r : TRec) (h : rs.find? (fun x => x.id == rid) = some r) (hown : r.user_id ≠ uid) :
    delete_record okMsg forbidMsg uid rid rs = (.flashDanger forbidMsg, rs) := by
  simp [delete_record, h, hown]

theorem edit_record_forbidden (okMsg forbidMsg : String) (uid rid : Nat) (f : Form)
    (rs : List TRec) (r : TRec) (h : rs.find? (fun x => x.id == rid) = some r)
    (hown : r.user_id ≠ uid) :
    edit_record okMsg forbidMsg uid rid f rs = (.flashDanger forbidMsg, rs) := by
  simp [edit_record, h, hown]

theorem edit_record_badFloat (okMsg forbidMsg : String) (uid rid : Nat) (f : Form)
    (rs : List TRec) (r : TRec) (astr : String)
    (h : rs.find? (fun x => x.id == rid) = some r) (hown : r.user_id = uid)
    (hfa : f.amount = some astr) (hpa : parseFloat astr = none) :
    edit_record okMsg forbidMsg uid rid f rs = (.flashDanger "Valor ou data inválidos.", rs) := by
  simp [edit_record, h, hown, tryBlock, pyFloat, hfa, hpa, Bind.bind, Except.bind]

theorem edit_record_badDate (okMsg forbidMsg : String) (uid rid : Nat) (f : Form)
    (rs : List TRec) (r : TRec) (a : ℚ) (dstr : String)
    (h : rs.find? (fun x => x.id == rid) = some r) (hown : r.user_id = uid)
    (hfl : pyFloat f.amount = .ok a) (hfd : f.date = some dstr) (hpd : parseDate dstr = none) :
    edit_record okMsg forbidMsg uid rid f rs = (.flashDanger "Valor ou data inválidos.", rs) := by
  simp [edit_record, h, hown, tryBlock, pyDate, hfl, hfd, hpd, Bind.bind, Except.bind]

theorem edit_record_success (okMsg forbidMsg : String) (uid rid : Nat) (f : Form)
    (rs : List TRec) (r : TRec) (desc cat : String) (a : ℚ) (d : Date)
    (h : rs.find? (fun x => x.id == rid) = some r) (hown : r.user_id = uid)
    (hde : f.description = some desc) (hcat : f.category = some cat)
    (hfl : pyFloat f.amount = .ok a) (hdt : pyDate f.date = .ok d) :
    edit_record okMsg forbidMsg uid rid f rs
      = (.success okMsg,
         rs.map (fun x =>
           if x.id == rid then
             { x with description := desc, amount := a, category := cat, date := d }
           else x)) := by
  simp [edit_record, h, hown, tryBlock, hde, hcat, hfl, hdt, Bind.bind, Except.bind,
    pure, Except.pure]

theorem edit_record_missingAmount (okMsg forbidMsg : String) (uid rid : Nat) (f : Form)
    (rs : List TRec) (r : TRec)
    (h : rs.find? (fun x => x.id == rid) = some r) (hown : r.user_id = uid)
    (hfa : f.amount = none) :
    edit_record okMsg forbidMsg uid rid f rs = (.serverError, rs) := by
  simp [edit_record, h, hown, tryBlock, pyFloat, hfa, Bind.bind, Except.bind]

/-- C5: on edit and delete of either record variant, a missing id yields
`notFound` (the 404 abort of `get_or_404`) with no record affected, and an
id owned by another user yields the forbidden denial message with the
store byte-for-byte unchanged; the two conditions are distinct outcomes. -/
theorem C5_notFound_and_forbidden (uid rid : Nat) (f : Form) (s : Store) :
    (s.expenses.find? (fun r => r.id == rid) = none →
      delete_expense uid rid s = (.notFound, s) ∧
      edit_expense uid rid f s = (.notFound, s)) ∧
    (s.incomes.find? (fun r => r.id == rid) = none →
      delete_income uid rid s = (.notFound, s) ∧
      edit_income uid rid f s = (.notFound, s)) ∧
    (∀ r, s.expenses.find? (fun x => x.id == rid) = some r → r.user_id ≠ uid →
      delete_expense uid rid s
        = (.flashDanger "Você não tem permissão para deletar este gasto.", s) ∧
      edit_expense uid rid f s
        = (.flashDanger "Você não tem permissão para editar este gasto.", s)) ∧
    (∀ r, s.incomes.find? (fun x => x.id == rid) = some r → r.user_id ≠ uid →
      delete_income uid rid s
        = (.flashDanger "Você não tem permissão para deletar esta receita.", s) ∧
      edit_income uid rid f s
        = (.flashDanger "Você não tem permissão para editar esta receita.", s)) ∧
    (∀ m, (Outcome.notFound : Outcome) ≠ .flashDanger m) := by
  refine ⟨fun h => ⟨?_, ?_⟩, fun h => ⟨?_, ?_⟩,
    fun r hr hown => ⟨?_, ?_⟩, fun r hr hown => ⟨?_, ?_⟩, fun m hne => by cases hne⟩
  · simp [delete_expense, delete_record_notFound _ _ _ _ _ h]
  · simp [edit_expense, edit_record_notFound _ _ _ _ _ _ h]
  · simp [delete_income, delete_record_notFound _ _ _ _ _ h]
  · simp [edit_income, edit_record_notFound _ _ _ _ _ _ h]
  · simp [delete_expense, delete_record_forbidden _ _ _ _ _ _ hr hown]
  · simp [edit_expense, edit_record_forbidden _ _ _ _ _ _ _ hr hown]
  · simp [delete_income, delete_record_forbidden _ _ _ _ _ _ hr hown]
  · simp [edit_income, edit_record_forbidden _ _ _ _ _ _ _ hr hown]

/-- Witness for C5: a delete of an absent id 404s on the empty store, and
user 8 is refused on user 7's expense, which stays unchanged. -/
theorem C5_notFound_and_forbidden_witness :
    delete_expense 7 1 emptyStore = (.notFound, emptyStore) ∧
    delete_expense 8 1 storeE
      = (.flashDanger "Você não tem permissão para deletar este gasto.", storeE) := by
  refine ⟨((C5_notFound_and_forbidden 7 1 formOk emptyStore).1 (by decide)).1, ?_⟩
  have h := (C5_notFound_and_forbidden 8 1 formOk storeE).2.2.1
  exact (h recLunch (by decide) (by decide)).1

/-- Counterexample to C4: the edit handler applies no positivity check —
an amount of "-5" parses, is ≤ 0, and is committed as a full overwrite
with a success flash instead of being rejected with the record unchanged. -/
theorem C4_counterexample :
    parseFloat "-5" = some (-5) ∧ ((-5 : ℚ) ≤ 0) ∧
    edit_expense 7 1 formNeg storeE
      = (.success "Gasto atualizado com sucesso!",
         { users := [], expenses := [recNeg], incomes := [] }) := by
  refine ⟨by decide, by norm_num, by decide⟩

/-- C4 amended: the edit handlers validate only that the amount parses as
a float and the date parses as a calendar date (each failure flashes the
invalid-value error with the store unchanged); blank descriptions,
categories and non-positive amounts are accepted, and on an input passing
the ownership guard and both parses the handler fully overwrites
description, amount, category and date. -/
theorem C4_amended_edit_validation (okMsg forbidMsg : String) (uid rid : Nat) (f : Form)
    (rs : List TRec) (r : TRec)
    (hfind : rs.find? (fun x => x.id == rid) = some r) (hown : r.user_id = uid) :
    (∀ astr, f.amount = some astr → parseFloat astr = none →
      edit_record okMsg forbidMsg uid rid f rs
        = (.flashDanger "Valor ou data inválidos.", rs)) ∧
    (∀ a dstr, pyFloat f.amount = .ok a → f.date = some dstr → parseDate dstr = none →
      edit_record okMsg forbidMsg uid rid f rs
        = (.flashDanger "Valor ou data inválidos.", rs)) ∧
    (∀ desc cat a d, f.description = some desc → f.category = some cat →
      pyFloat f.amount = .ok a → pyDate f.date = .ok d →
      edit_record okMsg forbidMsg uid rid f rs
        = (.success okMsg,
           rs.map (fun x =>
             if x.id == rid then
               { x with description := desc, amount := a, category := cat, date := d }
             else x))) := by
  refine ⟨fun astr hfa hpa => ?_, fun a dstr hfl hfd hpd => ?_,
    fun desc cat a d hde hcat hfl hdt => ?_⟩
  · exact edit_record_badFloat okMsg forbidMsg uid rid f rs r astr hfind hown hfa hpa
  · exact edit_record_badDate okMsg forbidMsg uid rid f rs r a dstr hfind hown hfl hfd hpd
  · exact edit_record_success okMsg forbidMsg uid rid f rs r desc cat a d hfind hown
      hde hcat hfl hdt

/-- Witness for the amended C4: editing user 7's expense with a negative
amount succeeds and overwrites all four fields. -/
theorem C4_amended_edit_validation_witness :
    edit_record "Gasto atualizado com sucesso!"
        "Você não tem permissão para editar este gasto." 7 1 formNeg [recLunch]
      = (.success "Gasto atualizado com sucesso!", [recNeg]) := by
  have h := (C4_amended_edit_validation "Gasto atualizado com sucesso!"
      "Você não tem permissão para editar este gasto." 7 1 formNeg [recLunch] recLunch
      (by decide) (by decide)).2.2
      "x" "y" (-5) { year := 2024, month := 1, day := 2 } rfl rfl rfl rfl
  exact h.trans (by decide)

theorem add_record_fst_no_serverError (okMsg : String) (uid : Nat) (f : Form)
    (rs : List TRec) : (add_record okMsg uid f rs).1 ≠ .serverError := by
  rcases add_record_cases okMsg uid f rs with ⟨m, hm⟩ | ⟨a, d, _, _, _, hm⟩ <;>
    simp [hm]

theorem delete_record_fst_no_serverError (okMsg forbidMsg : String) (uid rid : Nat)
    (rs : List TRec) : (delete_record okMsg forbidMsg uid rid rs).1 ≠ .serverError := by
  cases hfind : rs.find? (fun x => x.id == rid) with
  | none => simp [delete_record, hfind]
  | some r =>
    by_cases hown : r.user_id = uid <;> simp [delete_record, hfind, hown]

theorem edit_record_fst_no_serverError (okMsg forbidMsg : String) (uid rid : Nat)
    (desc astr cat dstr : String) (rs : List TRec) :
    (edit_record okMsg forbidMsg uid rid
      ⟨some desc, some astr, some cat, some dstr⟩ rs).1 ≠ .serverError := by
  cases hfind : rs.find? (fun x => x.id == rid) with
  | none => simp [edit_record, hfind]
  | some r =>
    by_cases hown : r.user_id = uid
    · rcases hpa : parseFloat astr with _ | a
      · simp [edit_record, hfind, hown, tryBlock, pyFloat, hpa, Bind.bind, Except.bind]
      · rcases hpd : parseDate dstr with _ | d
        · simp [edit_record, hfind, hown, tryBlock, pyFloat, pyDate, hpa, hpd,
            Bind.bind, Except.bind]
        · simp [edit_record, hfind, hown, tryBlock, pyFloat, pyDate, hpa, hpd,
            Bind.bind, Except.bind, pure, Except.pure]
    · simp [edit_record, hfind, hown]

theorem register_fst_no_serverError (un em pw cf : String) (us : List User) :
    (register (some un) (some em) (some pw) (some cf) us).1 ≠ .serverError := by
  unfold register
  split
  · simp
  · split
    · simp
    · split
      · simp
      · simp

theorem login_fst_no_serverError (e p : String) (us : List User) :
    (login none (some e) (some p) us).1 ≠ .serverError := by
  cases hfind : us.find? (fun u => some u.email == some e) with
  | none => simp only [login, hfind]; simp
  | some u =>
    by_cases hchk : check_password_hash u.password_hash p
    · simp only [login, hfind]; simp [hchk]
    · simp only [login, hfind]; simp [hchk]

/-- Counterexample to C7: a POST to the edit-expense route whose form
lacks the amount field reaches `float(None)`, raising a `TypeError` that
the handler's `except ValueError` does not catch — an unhandled exception
reachable from user-controlled input, not a user-visible message. -/
theorem C7_counterexample :
    edit_expense 7 1 formNoAmount storeE = (.serverError, storeE) := by decide

/-- C7 amended: for every request whose form supplies all of its fields
(as strings, possibly blank or malformed), every modelled handler
terminates in a handled, non-fatal outcome — never the
unhandled-exception outcome; only an edit request missing a form field
entirely can raise an uncaught exception. -/
theorem C7_amended_no_unhandled_exception (uid rid : Nat)
    (desc astr cat dstr un em pw cf e p : String) (s : Store) :
    (add_expense uid ⟨some desc, some astr, some cat, some dstr⟩ s).1 ≠ .serverError ∧
    (add_income uid ⟨some desc, some astr, some cat, some dstr⟩ s).1 ≠ .serverError ∧
    (edit_expense uid rid ⟨some desc, some astr, some cat, some dstr⟩ s).1 ≠ .serverError ∧
    (edit_income uid rid ⟨some desc, some astr, some cat, some dstr⟩ s).1 ≠ .serverError ∧
    (delete_expense uid rid s).1 ≠ .serverError ∧
    (delete_income uid rid s).1 ≠ .serverError ∧
    (register (some un) (some em) (some pw) (some cf) s.users).1 ≠ .serverError ∧
    (login none (some e) (some p) s.users).1 ≠ .serverError := by
  refine ⟨?_, ?_, ?_, ?_, ?_, ?_, ?_, ?_⟩
  · exact add_record_fst_no_serverError _ uid _ s.expenses
  · exact add_record_fst_no_serverError _ uid _ s.incomes
  · exact edit_record_fst_no_serverError _ _ uid rid desc astr cat dstr s.expenses
  · exact edit_record_fst_no_serverError _ _ uid rid desc astr cat dstr s.incomes
  · exact delete_record_fst_no_serverError _ _ uid rid s.expenses
  · exact delete_record_fst_no_serverError _ _ uid rid s.incomes
  · exact register_fst_no_serverError un em pw cf s.users
  · exact login_fst_no_serverError e p s.users

theorem queryUser_append_ne {r : TRec} {uid : Nat} (hne : r.user_id ≠ uid)
    (p : TRec → Bool) (l : List TRec) :
    queryUser uid p (l ++ [r]) = queryUser uid p l := by
  have hb : (r.user_id == uid) = false := beq_eq_false_iff_ne.mpr hne
  simp [queryUser, List.filter_append, hb]

theorem mem_insertDesc (x r : TRec) (l : List TRec) :
    x ∈ insertDesc r l ↔ x = r ∨ x ∈ l := by
  induction l with
  | nil => simp [insertDesc]
  | cons h t ih =>
    simp only [insertDesc]
    split
    · simp [List.mem_cons]
    · simp [List.mem_cons, ih]
      tauto

theorem mem_sortByDateDesc (x : TRec) (l : List TRec) :
    x ∈ sortByDateDesc l ↔ x ∈ l := by
  induction l with
  | nil => simp [sortByDateDesc]
  | cons h t ih =>
    rw [show sortByDateDesc (h :: t) = insertDesc h (sortByDateDesc t) from rfl,
      mem_insertDesc]
    simp [List.mem_cons, ih]

theorem user_of_mem_listing {x : TRec} {uid : Nat} {rs : List TRec}
    (hx : x ∈ (listing_page uid rs).records) : x.user_id = uid := by
  simp [listing_page, mem_sortByDateDesc, queryUser, List.mem_filter] at hx
  exact hx.2

/-- C6: owner isolation — a record owned by user `u1` is invisible to a
different user `u2`: appending it to either table changes neither `u2`'s
listing pages nor any component of `u2`'s financial dashboard (monthly,
yearly, category or grand totals), and it never appears in `u2`'s
listings. -/
theorem C6_owner_isolation (u1 u2 y : Nat) (r : TRec) (s : Store)
    (hne : u1 ≠ u2) (hr : r.user_id = u1) :
    expenses u2 { s with expenses := s.expenses ++ [r] } = expenses u2 s ∧
    r ∉ (expenses u2 { s with expenses := s.expenses ++ [r] }).records ∧
    incomes u2 { s with incomes := s.incomes ++ [r] } = incomes u2 s ∧
    r ∉ (incomes u2 { s with incomes := s.incomes ++ [r] }).records ∧
    financial_dashboard u2 y { s with expenses := s.expenses ++ [r] }
      = financial_dashboard u2 y s ∧
    financial_dashboard u2 y { s with incomes := s.incomes ++ [r] }
      = financial_dashboard u2 y s := by
  have hru : r.user_id ≠ u2 := by rw [hr]; exact hne
  refine ⟨?_, ?_, ?_, ?_, ?_, ?_⟩
  · simp [expenses, listing_page, queryUser_append_ne hru]
  · intro hmem
    exact hru (user_of_mem_listing hmem)
  · simp [incomes, listing_page, queryUser_append_ne hru]
  · intro hmem
    exact hru (user_of_mem_listing hmem)
  · simp [financial_dashboard, monthly_data, monthEntry, monthSum, yearSum, yearly_data,
      categoriesOfYear, total_expenses, total_incomes, total_balance,
      queryUser_append_ne hru]
  · simp [financial_dashboard, monthly_data, monthEntry, monthSum, yearSum, yearly_data,
      categoriesOfYear, total_expenses, total_incomes, total_balance,
      queryUser_append_ne hru]

/-- Witness for C6: user 8 sees nothing of user 7's lunch expense. -/
theorem C6_owner_isolation_witness :
    expenses 8 { emptyStore with expenses := emptyStore.expenses ++ [recLunch] }
      = expenses 8 emptyStore ∧
    financial_dashboard 8 2024 { emptyStore with expenses := emptyStore.expenses ++ [recLunch] }
      = financial_dashboard 8 2024 emptyStore := by
  have h := C6_owner_isolation 7 8 2024 recLunch emptyStore (by decide) (by decide)
  exact ⟨h.1, h.2.2.2.2.1⟩

/-- C8: a registration attempt (with matching password confirmation) whose
email is already present flashes the duplicate-email error and leaves the
user table — in particular the existing account's password digest —
completely unchanged; a fresh email with a duplicate username flashes the
duplicate-username error, likewise creating no account. -/
theorem C8_duplicate_registration (username email password confirm : Option String)
    (users : List User) (hpc : password = confirm) :
    (users.any (fun u => some u.email == email) = true →
      register username email password confirm users
        = (.flashDanger "Este email já está cadastrado.", users)) ∧
    (users.any (fun u => some u.email == email) = false →
      users.any (fun u => some u.username == username) = true →
      register username email password confirm users
        = (.flashDanger "Este nome de usuário já existe.", users)) := by
  constructor
  · intro hem
    unfold register
    rw [if_neg (fun h => h hpc), if_pos hem]
  · intro hem hun
    unfold register
    rw [if_neg (fun h => h hpc), if_neg (by simp [hem]), if_pos hun]

/-- Witness for C8: re-registering alice's email is refused and the user
table (digest included) is untouched; a fresh email with username "alice"
is refused likewise. -/
theorem C8_duplicate_registration_witness :
    register (some "bob") (some "alice@example.com") (some "pw") (some "pw") users0
      = (.flashDanger "Este email já está cadastrado.", users0) ∧
    register (some "alice") (some "bob@example.com") (some "pw") (some "pw") users0
      = (.flashDanger "Este nome de usuário já existe.", users0) :=
  ⟨(C8_duplicate_registration (some "bob") (some "alice@example.com") (some "pw")
      (some "pw") users0 rfl).1 (by decide),
   (C8_duplicate_registration (some "alice") (some "bob@example.com") (some "pw")
      (some "pw") users0 rfl).2 (by decide) (by decide)⟩

/-- C9: every protected operation invoked in the `Anonymous` session state
redirects to the login page without touching the store, and invoking
login while already `Authenticated` redirects to the dashboard without
consulting credentials or changing the authenticated identity. -/
theorem C9_session_gate (f : Form) (rid uid : Nat) (e p : Option String)
    (s : Store) (us : List User) :
    add_expense_route none f s = (.redirectLogin, s) ∧
    edit_expense_route none rid f s = (.redirectLogin, s) ∧
    delete_expense_route none rid s = (.redirectLogin, s) ∧
    add_income_route none f s = (.redirectLogin, s) ∧
    edit_income_route none rid f s = (.redirectLogin, s) ∧
    delete_income_route none rid s = (.redirectLogin, s) ∧
    financial_dashboard_route none s = (.redirectLogin, s) ∧
    login (some uid) e p us = (.redirectDashboard, some uid) :=
  ⟨rfl, rfl, rfl, rfl, rfl, rfl, rfl, rfl⟩

/-- C10: registration has no blank-field validation — empty username,
email and password are committed verbatim whenever the confirmation
matches and neither duplicate check fires. -/
theorem C10_register_no_blank_validation (username email password : String)
    (users : List User)
    (hblank : username = "" ∨ email = "" ∨ password = "")
    (hem : users.any (fun u => some u.email == some email) = false)
    (hun : users.any (fun u => some u.username == some username) = false) :
    register (some username) (some email) (some password) (some password) users
      = (.success "Conta criada com sucesso! Faça login.",
         users ++ [{ id := freshUserId users, username := username, email := email,
                     password_hash := generate_password_hash password }]) := by
  unfold register
  rw [if_neg (fun h => h rfl), if_neg (by simp only [hem]; simp),
    if_neg (by simp only [hun]; simp)]

/-- Witness for C10: registering with every field empty on an empty user
table creates the all-blank account. -/
theorem C10_register_no_blank_validation_witness :
    register (some "") (some "") (some "") (some "") []
      = (.success "Conta criada com sucesso! Faça login.",
         [{ id := 1, username := "", email := "",
            password_hash := generate_password_hash "" }]) := by
  have h := C10_register_no_blank_validation "" "" "" [] (.inl rfl) (by decide) (by decide)
  exact h.trans (by decide)
